import Mathlib

/-!
Shallow embedding of the performance-tracker sales dashboard.

The dashboard keeps an in-memory list of daily sales entries whose numeric
fields are validated decimal strings, aggregates them into summary metrics
(`totalVoiceLines`, …, `protectionPercent`, `averageMRC`), persists entries to
an external row store, fetches a coaching tip from a backend that proxies a
completion service, and gates the tracker page behind a login token.

JavaScript numbers are modelled exactly: whole-number fields (validated by
`/^\d+$/`) as `Nat`, dollar-amount fields (validated by `/^\d+(\.\d{1,2})?$/`)
as `ℚ`.  External collaborators (the row store, the completion service, JSON
parsing, bcrypt comparison, JWT signing) are passed in as explicit outcomes or
function parameters.
-/

/-- Decimal value of a list of digit characters, most significant first. -/
def parseDigits (l : List Char) : Nat :=
  l.foldl (fun a c => a * 10 + (c.toNat - 48)) 0

/-- JavaScript `Number(s)` restricted to validated whole-number strings
(`/^\d+$/`): most-significant-digit-first decimal accumulation over the
characters.  On `""` it yields `0`, matching JS `Number("")`. -/
def parseNat (s : String) : Nat := parseDigits s.data

/-- The character of one decimal digit (`0 ↦ '0'`, …, `9 ↦ '9'`). -/
def digitChar (d : Nat) : Char := Char.ofNat (48 + d)

/-- Digits of `n`, most significant first, prepended to `acc`; the fuel
argument only bounds the recursion depth and never runs out when it starts
at least one above the number of digits. -/
def renderNatAux : Nat → Nat → List Char → List Char
  | 0, _, acc => acc
  | fuel + 1, n, acc =>
    if n < 10 then digitChar n :: acc
    else renderNatAux fuel (n / 10) (digitChar (n % 10) :: acc)

/-- JavaScript `String(n)` on a non-negative integer: its decimal numeral. -/
def renderNat (n : Nat) : String := String.mk (renderNatAux (n + 1) n [])

/-- JavaScript `Number(s)` restricted to validated dollar-amount strings
(`/^\d+(\.\d{1,2})?$/`), as an exact rational: the digits before the optional
`'.'` are the integer part, the digits after it the fraction. -/
def parseMoney (s : String) : ℚ :=
  let intPart := s.data.takeWhile (fun c => c ≠ '.')
  let fracPart := (s.data.dropWhile (fun c => c ≠ '.')).drop 1
  (parseDigits intPart : ℚ) + (parseDigits fracPart : ℚ) / (10 : ℚ) ^ fracPart.length

/-- Left-pad a string with `'0'` up to length `d`. -/
def padZeros (d : Nat) (s : String) : String :=
  if d ≤ s.length then s else String.mk (List.replicate (d - s.length) '0') ++ s

/-- Floor of a rational, computably: integer division of the numerator by the
denominator. -/
def ratFloor (q : ℚ) : ℤ := q.num / (q.den : ℤ)

/-- `ratFloor` is the mathematical floor. -/
theorem ratFloor_eq (q : ℚ) : ratFloor q = ⌊q⌋ := Rat.floor_def.symm

/-- JavaScript `x.toFixed(d)` on a non-negative number: round `x·10^d` to the
nearest integer — ties to the larger integer, as the ECMAScript `toFixed`
specification prescribes — and print with exactly `d` digits after the
point. -/
def toFixed (x : ℚ) (d : Nat) : String :=
  let n : Nat := (ratFloor (x * (10 : ℚ) ^ d + 1 / 2)).toNat
  renderNat (n / 10 ^ d) ++ "." ++ padZeros d (renderNat (n % 10 ^ d))

/-- One daily sales record as the UI holds it: all numeric fields are the
validated strings typed into the form (`src/pages/PerformanceTracker.tsx`). -/
structure Entry where
  date : String
  voiceLines : String
  bts : String
  iot : String
  hsi : String
  accessories : String
  protection : String
  planName : String
  mrc : String
deriving DecidableEq

/-- `entries.reduce((sum, e) => sum + Number(e.voiceLines), 0)`. -/
def totalVoiceLines (entries : List Entry) : Nat :=
  entries.foldl (fun sum e => sum + parseNat e.voiceLines) 0

/-- `entries.reduce((sum, e) => sum + Number(e.bts), 0)`. -/
def totalBts (entries : List Entry) : Nat :=
  entries.foldl (fun sum e => sum + parseNat e.bts) 0

/-- `entries.reduce((sum, e) => sum + Number(e.iot), 0)`. -/
def totalIot (entries : List Entry) : Nat :=
  entries.foldl (fun sum e => sum + parseNat e.iot) 0

/-- `entries.reduce((sum, e) => sum + Number(e.hsi), 0)`. -/
def totalHsi (entries : List Entry) : Nat :=
  entries.foldl (fun sum e => sum + parseNat e.hsi) 0

/-- `totalVoiceLines + totalBts + totalIot + totalHsi`. -/
def totalLines (entries : List Entry) : Nat :=
  totalVoiceLines entries + totalBts entries + totalIot entries + totalHsi entries

/-- `entries.reduce((sum, e) => sum + Number(e.accessories), 0)`. -/
def totalAccessories (entries : List Entry) : ℚ :=
  entries.foldl (fun sum e => sum + parseMoney e.accessories) 0

/-- `entries.reduce((sum, e) => sum + Number(e.protection), 0)`. -/
def totalProtection (entries : List Entry) : Nat :=
  entries.foldl (fun sum e => sum + parseNat e.protection) 0

/-- `totalLines > 0 ? ((totalProtection / totalLines) * 100).toFixed(1) + "%"
: "0.0%"` — the division is syntactically under the guard. -/
def protectionPercent (entries : List Entry) : String :=
  if totalLines entries > 0 then
    toFixed ((totalProtection entries : ℚ) / (totalLines entries : ℚ) * 100) 1 ++ "%"
  else "0.0%"

/-- `entries.length > 0 ? (entries.reduce((sum, e) => sum + Number(e.mrc), 0)
/ entries.length).toFixed(2) : "0.00"`. -/
def averageMRC (entries : List Entry) : String :=
  if entries.length > 0 then
    toFixed ((entries.foldl (fun sum e => sum + parseMoney e.mrc) 0) / (entries.length : ℚ)) 2
  else "0.00"

/-- The entry of the spec's worked scenario. -/
def demoEntry : Entry :=
  ⟨"2024-01-01", "10", "5", "0", "0", "2.50", "3", "X", "50.00"⟩

/-- A second concrete entry, used for order-sensitivity counterexamples. -/
def demoEntry2 : Entry :=
  ⟨"2024-01-02", "0", "1", "2", "3", "0.00", "1", "Y", "10.00"⟩

/-- A JS-style `reduce` with `+` is the sum of the mapped list. -/
theorem foldl_add_eq_sum {α M : Type*} [AddCommMonoid M] (f : α → M)
    (l : List α) (a : M) :
    l.foldl (fun s e => s + f e) a = a + (l.map f).sum := by
  induction l generalizing a with
  | nil => simp
  | cons x xs ih => simp [ih, add_assoc]

/-- Evaluation helper: `toFixed x d` once the rounded numerator is known. -/
theorem toFixed_eval (x : ℚ) (d n : Nat) (h : ⌊x * (10 : ℚ) ^ d + 1 / 2⌋ = (n : ℤ)) :
    toFixed x d = renderNat (n / 10 ^ d) ++ "." ++ padZeros d (renderNat (n % 10 ^ d)) := by
  simp only [toFixed, ratFloor_eq, h, Int.toNat_natCast]

/-- Evaluation helper: `parseMoney s` once its integer and fraction digit
values are known. -/
theorem parseMoney_eval (s : String) (a b len : Nat)
    (ha : parseDigits (s.data.takeWhile (fun c => c ≠ '.')) = a)
    (hb : parseDigits ((s.data.dropWhile (fun c => c ≠ '.')).drop 1) = b)
    (hl : ((s.data.dropWhile (fun c => c ≠ '.')).drop 1).length = len) :
    parseMoney s = (a : ℚ) + (b : ℚ) / (10 : ℚ) ^ len := by
  simp only [parseMoney, ha, hb, hl]

/-- Claim C1: for every entry list the protection percentage is `"0.0%"` when
total lines is 0 — the guarded branch, so the division is never taken there —
and otherwise is `protection / lines * 100` rendered to one decimal place with
`"%"` appended. -/
theorem protection_percent_spec (entries : List Entry) :
    (totalLines entries = 0 → protectionPercent entries = "0.0%") ∧
    (totalLines entries ≠ 0 →
      protectionPercent entries =
        toFixed ((totalProtection entries : ℚ) / (totalLines entries : ℚ) * 100) 1 ++ "%") := by
  constructor
  · intro h
    simp [protectionPercent, h]
  · intro h
    simp [protectionPercent, Nat.pos_of_ne_zero h]

/-- Witness for C1: on the spec's worked scenario the list is non-empty, the
non-zero branch applies, and the rendered value is `"20.0%"`. -/
theorem protection_percent_spec_witness :
    protectionPercent [demoEntry] =
      toFixed ((totalProtection [demoEntry] : ℚ) / (totalLines [demoEntry] : ℚ) * 100) 1 ++ "%" :=
  (protection_percent_spec [demoEntry]).2 (by decide)

example : totalLines [demoEntry] = 15 := by decide

example : protectionPercent [demoEntry] = "20.0%" := by
  have h1 : totalProtection [demoEntry] = 3 := by decide
  have h2 : totalLines [demoEntry] = 15 := by decide
  unfold protectionPercent
  rw [h1, h2, if_pos (by norm_num)]
  rw [toFixed_eval _ _ 200 (by norm_num)]
  decide

example : averageMRC [demoEntry] = "50.00" := by
  have hm : parseMoney "50.00" = 50 := by
    rw [parseMoney_eval "50.00" 50 0 2 (by decide) (by decide) (by decide)]
    norm_num
  unfold averageMRC
  rw [if_pos (by decide)]
  simp only [List.foldl_cons, List.foldl_nil, List.length_cons, List.length_nil]
  rw [show demoEntry.mrc = "50.00" from rfl, hm]
  rw [toFixed_eval _ _ 5000 (by norm_num)]
  decide

/-- Claim C2: total lines is exactly the sum of the four channel totals, and
each channel total is the sum of that channel's count over all entries. -/
theorem total_lines_spec (entries : List Entry) :
    totalLines entries
        = totalVoiceLines entries + totalBts entries + totalIot entries + totalHsi entries ∧
    totalVoiceLines entries = (entries.map (fun e => parseNat e.voiceLines)).sum ∧
    totalBts entries = (entries.map (fun e => parseNat e.bts)).sum ∧
    totalIot entries = (entries.map (fun e => parseNat e.iot)).sum ∧
    totalHsi entries = (entries.map (fun e => parseNat e.hsi)).sum := by
  refine ⟨rfl, ?_, ?_, ?_, ?_⟩ <;>
    simp only [totalVoiceLines, totalBts, totalIot, totalHsi]
  · simpa using foldl_add_eq_sum (fun e => parseNat e.voiceLines) entries 0
  · simpa using foldl_add_eq_sum (fun e => parseNat e.bts) entries 0
  · simpa using foldl_add_eq_sum (fun e => parseNat e.iot) entries 0
  · simpa using foldl_add_eq_sum (fun e => parseNat e.hsi) entries 0

/-- Claim C3: the average MRC of the empty list is exactly `"0.00"`, and for a
non-empty list it is the sum of the entries' MRC values divided by the number
of entries, rendered to two decimal places. -/
theorem average_mrc_spec :
    averageMRC [] = "0.00" ∧
    ∀ entries : List Entry, entries ≠ [] →
      averageMRC entries =
        toFixed ((entries.map (fun e => parseMoney e.mrc)).sum / (entries.length : ℚ)) 2 := by
  refine ⟨rfl, fun entries h => ?_⟩
  have hlen : 0 < entries.length := List.length_pos.mpr h
  simp only [averageMRC, if_pos hlen]
  rw [foldl_add_eq_sum, zero_add]

/-- Witness for C3: the non-empty branch applied to the worked scenario. -/
theorem average_mrc_spec_witness :
    averageMRC [demoEntry] =
      toFixed (([demoEntry].map (fun e => parseMoney e.mrc)).sum / (([demoEntry] : List Entry).length : ℚ)) 2 :=
  average_mrc_spec.2 [demoEntry] (by decide)

/-- Outcome of the browser `fetch` call as the tip fetcher observes it:
either a response arrived, with its `ok` flag and raw body text, or the
transport rejected with an error message. -/
inductive HttpResult where
  | response (ok : Bool) (raw : String)
  | netError (msg : String)

/-- The static prompt used when there are no entries — identical on the
client (`setTip(...)`) and the server (`/api/generateTip` empty-body
branch). -/
def addEntryPrompt : String :=
  "📊 Add at least one sales entry to get a personalized tip."

/-- The backend's static fallback tip on a completion-service failure. -/
def fallbackTip : String :=
  "📈 Tip: Focus on upselling accessories when accessory totals exceed 5 units today."

/-- The body of `fetchTip`'s `try` block.  `decode` models `JSON.parse`
followed by the `.tip` field access: `Except.error` is a thrown parse
exception, `Except.ok` carries the optional `tip` field.  A non-ok response
throws its raw body (`if (!res.ok) throw new Error(raw)`); `data.tip ||
"(no tip)"` maps an absent or empty field to the placeholder. -/
def fetchTipTry (decode : String → Except String (Option String)) :
    HttpResult → Except String String
  | .netError msg => .error msg
  | .response ok raw =>
    if ok then
      match decode raw with
      | .error m => .error m
      | .ok (some t) => .ok (if t = "" then "(no tip)" else t)
      | .ok none => .ok "(no tip)"
    else .error raw

/-- `fetchTip`: the `catch` turns every thrown error into the diagnostic
tip string; the function is total, so no exception escapes to the caller. -/
def fetchTip (decode : String → Except String (Option String))
    (r : HttpResult) : String :=
  match fetchTipTry decode r with
  | .error m => "Error: " ++ m
  | .ok t => t

/-- The tip `useEffect`: with a non-empty entry list it runs `fetchTip`
against the network outcome; with an empty list it performs no request and
sets the static prompt.  The `Bool` records whether a request was issued. -/
def tipOfTheDay (decode : String → Except String (Option String))
    (net : HttpResult) (entries : List Entry) : Bool × String :=
  if entries.length > 0 then (true, fetchTip decode net)
  else (false, addEntryPrompt)

/-- Outcome of the OpenAI chat-completion call made by the backend. -/
inductive AIOutcome where
  | success (text : String)
  | failure

/-- `POST /api/generateTip` (`server.js`): a missing or empty `entries` body
returns the static prompt immediately; otherwise the completion text,
trimmed; any error thrown by the completion call is caught and answered
with HTTP 200 and the static fallback tip. -/
def generateTipHandler (ai : AIOutcome) (body : Option (List Entry)) : Nat × String :=
  match body with
  | none => (200, addEntryPrompt)
  | some entries =>
    if entries.length = 0 then (200, addEntryPrompt)
    else
      match ai with
      | .success t => (200, t.trim)
      | .failure => (200, fallbackTip)

/-- Result of the Supabase insert issued by `onSubmit`. -/
inductive InsertResult where
  | ok
  | error (msg : String)

/-- The entry-list update performed by `onSubmit`: on an insert error the
handler logs and returns before touching the list; on success the submitted
values are prepended to the previous list. -/
def onSubmitEntries (r : InsertResult) (values : Entry) (prev : List Entry) :
    List Entry :=
  match r with
  | .error _ => prev
  | .ok => values :: prev

/-- Claim C4: with an empty entry list the tip effect issues no network
request and displays the static add-an-entry prompt; the backend likewise
answers an empty or missing entries body with the same static prompt. -/
theorem empty_entries_skip_tip
    (decode : String → Except String (Option String)) (net : HttpResult)
    (ai : AIOutcome) :
    tipOfTheDay decode net [] = (false, addEntryPrompt) ∧
    generateTipHandler ai (some []) = (200, addEntryPrompt) ∧
    generateTipHandler ai none = (200, addEntryPrompt) :=
  ⟨rfl, rfl, rfl⟩

/-- Claim C5: a non-success response or a transport failure makes the
displayed tip the diagnostic string embedding the raw body / error text —
in particular the raw text occurs inside it — and the `catch` makes
`fetchTip` total, so no exception escapes. -/
theorem tip_failure_diagnostic
    (decode : String → Except String (Option String)) (raw msg : String) :
    fetchTip decode (.response false raw) = "Error: " ++ raw ∧
    fetchTip decode (.netError msg) = "Error: " ++ msg ∧
    (∃ pre post, fetchTip decode (.response false raw) = pre ++ raw ++ post) ∧
    (∃ pre post, fetchTip decode (.netError msg) = pre ++ msg ++ post) := by
  refine ⟨rfl, rfl, ⟨"Error: ", "", ?_⟩, ⟨"Error: ", "", ?_⟩⟩ <;>
    simp [fetchTip, fetchTipTry]

/-- Claim C8: a failed insert leaves the entry list exactly unchanged; a
successful insert prepends the new entry at index 0 with every previous
entry shifted by one, unmodified. -/
theorem on_submit_entries_spec (values : Entry) (prev : List Entry) :
    (∀ msg, onSubmitEntries (.error msg) values prev = prev) ∧
    onSubmitEntries .ok values prev = values :: prev ∧
    (onSubmitEntries .ok values prev)[0]? = some values ∧
    (∀ i : Nat, (onSubmitEntries .ok values prev)[i + 1]? = prev[i]?) := by
  refine ⟨fun _ => rfl, rfl, by simp [onSubmitEntries], fun i => ?_⟩
  simp [onSubmitEntries]

/-- Claim C10: for a non-empty entries body a completion-service failure
still yields HTTP 200 with the fixed static fallback tip, and no branch of
the handler ever returns a non-200 status, so the client cannot observe a
provider failure as a non-2xx response through this server. -/
theorem generate_tip_fallback :
    (∀ entries : List Entry, entries ≠ [] →
      generateTipHandler .failure (some entries) = (200, fallbackTip)) ∧
    (∀ (ai : AIOutcome) (body : Option (List Entry)),
      (generateTipHandler ai body).1 = 200) := by
  constructor
  · intro entries h
    simp [generateTipHandler, List.length_eq_zero, h]
  · intro ai body
    cases body with
    | none => rfl
    | some entries =>
      by_cases h : entries.length = 0 <;> cases ai <;>
        simp [generateTipHandler, h]

/-- Witness for C10: the failure fallback on the concrete one-entry list. -/
theorem generate_tip_fallback_witness :
    generateTipHandler .failure (some [demoEntry]) = (200, fallbackTip) :=
  generate_tip_fallback.1 [demoEntry] (by decide)

/-- One record of the server's in-memory demo user store. -/
structure User where
  id : Nat
  username : String
  passwordHash : String
deriving DecidableEq

/-- The in-memory `users` array of `server.js`: the single demo account,
with the stored bcrypt hash of its password. -/
def users : List User :=
  [⟨1, "admin", "$2b$10$Qcs.EaETZC0lP9fbqqMoRerZaQNzgx6nP.brhOddrahJfqEGTfkhW"⟩]

/-- `POST /api/login` (`server.js`) as `(status, token body)`: missing
credentials (falsy, i.e. empty, fields) → 400; unknown username or failed
bcrypt comparison → 401 with no token; otherwise 200 with a signed token.
`compare` models `bcrypt.compare`; `sign` models `jwt.sign` over the
`(userId, username)` payload. -/
def loginHandler (compare : String → String → Bool)
    (sign : Nat → String → String) (username password : String) :
    Nat × Option String :=
  if username = "" ∨ password = "" then (400, none)
  else
    match users.find? (fun u => u.username = username) with
    | none => (401, none)
    | some u =>
      if compare password u.passwordHash then (200, some (sign u.id u.username))
      else (401, none)

/-- The client's stored `authToken` after `handleSubmit` (`Login.tsx`)
processes the login response: a non-2xx response sets an inline error and
returns without touching storage; a 2xx response stores the token from the
response body (the server always sends one on 200). -/
def handleLoginResponse (resp : Nat × Option String) (stored : Option String) :
    Option String :=
  if 200 ≤ resp.1 ∧ resp.1 < 300 then resp.2 else stored

/-- The two client surfaces behind the router. -/
inductive Page where
  | login
  | tracker
deriving DecidableEq

/-- `ProtectedRoute` (`App.tsx`): a missing — or empty, hence falsy —
stored token redirects to the login page; otherwise the tracker renders. -/
def protectedRoute (token : Option String) : Page :=
  match token with
  | none => .login
  | some t => if t = "" then .login else .tracker

/-- Claim C6: a login whose password fails the bcrypt comparison for the
given username — or whose username is not in the user store — is answered
with status 401 and no token; the client then stores nothing, and the gated
dashboard route still redirects to the login page. -/
theorem login_wrong_password
    (compare : String → String → Bool) (sign : Nat → String → String)
    (username password : String)
    (hu : username ≠ "") (hp : password ≠ "")
    (hmatch : ∀ u ∈ users, u.username = username →
      compare password u.passwordHash = false) :
    loginHandler compare sign username password = (401, none) ∧
    handleLoginResponse (loginHandler compare sign username password) none = none ∧
    protectedRoute
      (handleLoginResponse (loginHandler compare sign username password) none) =
      Page.login := by
  have h1 : loginHandler compare sign username password = (401, none) := by
    unfold loginHandler
    rw [if_neg (by push_neg; exact ⟨hu, hp⟩)]
    cases hfind : users.find? (fun u => u.username = username) with
    | none => rfl
    | some u =>
      have hmem := List.mem_of_find?_eq_some hfind
      have huser : u.username = username := by simpa using List.find?_some hfind
      simp [hmatch u hmem huser]
  refine ⟨h1, ?_, ?_⟩ <;> rw [h1] <;> rfl

/-- Witness for C6: the concrete wrong-password attempt against the demo
store, with a bcrypt comparison that rejects everything. -/
theorem login_wrong_password_witness :
    loginHandler (fun _ _ => false) (fun _ _ => "tok") "admin" "letmein" = (401, none) ∧
    handleLoginResponse
      (loginHandler (fun _ _ => false) (fun _ _ => "tok") "admin" "letmein") none = none ∧
    protectedRoute
      (handleLoginResponse
        (loginHandler (fun _ _ => false) (fun _ _ => "tok") "admin" "letmein") none) =
      Page.login :=
  login_wrong_password (fun _ _ => false) (fun _ _ => "tok") "admin" "letmein"
    (by decide) (by decide) (by decide)

/-- Claim C7: every aggregator output — the four channel totals, total
lines, total accessories, total protection, the protection percentage, and
the average MRC — is invariant under permutation of the entry list, while
the index-0 "latest entry" display is order-sensitive. -/
theorem summary_perm_invariant :
    (∀ l₁ l₂ : List Entry, l₁.Perm l₂ →
      totalVoiceLines l₁ = totalVoiceLines l₂ ∧
      totalBts l₁ = totalBts l₂ ∧
      totalIot l₁ = totalIot l₂ ∧
      totalHsi l₁ = totalHsi l₂ ∧
      totalLines l₁ = totalLines l₂ ∧
      totalAccessories l₁ = totalAccessories l₂ ∧
      totalProtection l₁ = totalProtection l₂ ∧
      protectionPercent l₁ = protectionPercent l₂ ∧
      averageMRC l₁ = averageMRC l₂) ∧
    (∃ l₁ l₂ : List Entry, l₁.Perm l₂ ∧ l₁[0]? ≠ l₂[0]?) := by
  constructor
  · intro l₁ l₂ h
    have key : ∀ {M : Type} [AddCommMonoid M] (f : Entry → M),
        l₁.foldl (fun s e => s + f e) 0 = l₂.foldl (fun s e => s + f e) 0 := by
      intro M _ f
      rw [foldl_add_eq_sum, foldl_add_eq_sum, List.Perm.sum_eq (List.Perm.map f h)]
    have hv : totalVoiceLines l₁ = totalVoiceLines l₂ := key _
    have hb : totalBts l₁ = totalBts l₂ := key _
    have hi : totalIot l₁ = totalIot l₂ := key _
    have hh : totalHsi l₁ = totalHsi l₂ := key _
    have hl : totalLines l₁ = totalLines l₂ := by
      unfold totalLines; rw [hv, hb, hi, hh]
    have hp : totalProtection l₁ = totalProtection l₂ := key _
    refine ⟨hv, hb, hi, hh, hl, key _, hp, ?_, ?_⟩
    · unfold protectionPercent; rw [hl, hp]
    · unfold averageMRC; rw [key (fun e => parseMoney e.mrc), h.length_eq]
  · exact ⟨[demoEntry, demoEntry2], [demoEntry2, demoEntry], by decide, by decide⟩

/-- Witness for C7: the invariance instantiated at a concrete transposition
of two distinct entries. -/
theorem summary_perm_invariant_witness :
    totalVoiceLines [demoEntry, demoEntry2] = totalVoiceLines [demoEntry2, demoEntry] ∧
    totalBts [demoEntry, demoEntry2] = totalBts [demoEntry2, demoEntry] ∧
    totalIot [demoEntry, demoEntry2] = totalIot [demoEntry2, demoEntry] ∧
    totalHsi [demoEntry, demoEntry2] = totalHsi [demoEntry2, demoEntry] ∧
    totalLines [demoEntry, demoEntry2] = totalLines [demoEntry2, demoEntry] ∧
    totalAccessories [demoEntry, demoEntry2] = totalAccessories [demoEntry2, demoEntry] ∧
    totalProtection [demoEntry, demoEntry2] = totalProtection [demoEntry2, demoEntry] ∧
    protectionPercent [demoEntry, demoEntry2] = protectionPercent [demoEntry2, demoEntry] ∧
    averageMRC [demoEntry, demoEntry2] = averageMRC [demoEntry2, demoEntry] :=
  summary_perm_invariant.1 [demoEntry, demoEntry2] [demoEntry2, demoEntry] (by decide)

/-- The digit characters take their expected code points. -/
theorem digitChar_toNat (d : Nat) (h : d < 10) : (digitChar d).toNat = 48 + d := by
  interval_cases d <;> decide

/-- `renderNatAux` emits exactly the base-10 digits (most significant first)
in front of the accumulator, given enough fuel. -/
theorem renderNatAux_eq_digits :
    ∀ (fuel n : Nat) (acc : List Char), 0 < n → n < 10 ^ fuel →
      renderNatAux fuel n acc = (Nat.digits 10 n).reverse.map digitChar ++ acc := by
  intro fuel
  induction fuel with
  | zero => intro n acc h1 h2; simp at h2; omega
  | succ fuel ih =>
    intro n acc h1 h2
    simp only [renderNatAux]
    by_cases h10 : n < 10
    · rw [if_pos h10, Nat.digits_def' (by norm_num : 1 < 10) h1,
        Nat.mod_eq_of_lt h10, Nat.div_eq_of_lt h10]
      simp
    · rw [if_neg h10]
      have hpos : 0 < n / 10 := Nat.div_pos (le_of_not_lt h10) (by norm_num)
      have hlt : n / 10 < 10 ^ fuel := by
        rw [Nat.div_lt_iff_lt_mul (by norm_num : 0 < 10)]
        calc n < 10 ^ (fuel + 1) := h2
          _ = 10 ^ fuel * 10 := by ring
      rw [ih (n / 10) (digitChar (n % 10) :: acc) hpos hlt,
        Nat.digits_def' (by norm_num : 1 < 10) h1]
      simp

/-- Folding the digit-parsing step over a reversed digit-character list
recovers the positional value. -/
theorem foldl_digits (ds : List Nat) (hd : ∀ d ∈ ds, d < 10) (a : Nat) :
    (ds.reverse.map digitChar).foldl (fun x c => x * 10 + (c.toNat - 48)) a
      = a * 10 ^ ds.length + Nat.ofDigits 10 ds := by
  induction ds generalizing a with
  | nil => simp
  | cons d tl ih =>
    have hdd : d < 10 := hd d (List.mem_cons_self d tl)
    have htl : ∀ x ∈ tl, x < 10 := fun x hx => hd x (List.mem_cons_of_mem d hx)
    rw [List.reverse_cons, List.map_append, List.foldl_append, ih htl]
    simp only [List.map_cons, List.map_nil, List.foldl_cons, List.foldl_nil,
      digitChar_toNat d hdd, Nat.ofDigits_cons, List.length_cons]
    have : 48 + d - 48 = d := by omega
    rw [this, pow_succ]
    ring

/-- Round trip: parsing the decimal rendering of `n` gives back `n` —
JS `Number(String(n)) === n` for non-negative integers. -/
theorem parseNat_renderNat (n : Nat) : parseNat (renderNat n) = n := by
  rcases Nat.eq_zero_or_pos n with h | h
  · subst h; decide
  · have hlt : n < 10 ^ (n + 1) :=
      lt_of_lt_of_le (Nat.lt_pow_self (by norm_num) n)
        (Nat.pow_le_pow_right (by norm_num) (Nat.le_succ n))
    show parseDigits (String.mk (renderNatAux (n + 1) n [])).data = n
    rw [show (String.mk (renderNatAux (n + 1) n [])).data
        = renderNatAux (n + 1) n [] from rfl,
      renderNatAux_eq_digits (n + 1) n [] h hlt, List.append_nil]
    have hd : ∀ d ∈ Nat.digits 10 n, d < 10 :=
      fun d hdm => Nat.digits_lt_base (by norm_num) hdm
    unfold parseDigits
    rw [foldl_digits (Nat.digits 10 n) hd 0]
    simp [Nat.ofDigits_digits]

/-- One row of the external `entries` table, with the column types the
store holds: `lines` and `protection` are integers, `accessories` and
`revenue` are decimal numbers, as inserted by `onSubmit`. -/
structure Row where
  date : String
  lines : Nat
  accessories : ℚ
  protection : Nat
  revenue : ℚ
  plan_name : String

/-- The insert payload built by `onSubmit`: the four line fields are
coerced with `Number` and reduced with `+` into the single `lines` column;
the other numeric fields are coerced individually. -/
def toRow (values : Entry) : Row :=
  { date := values.date
    lines := ([values.voiceLines, values.bts, values.iot, values.hsi].map parseNat).foldl
      (fun a b => a + b) 0
    accessories := parseMoney values.accessories
    protection := parseNat values.protection
    revenue := parseMoney values.mrc
    plan_name := values.planName }

/-- The mount-time fetch mapping of a stored row back into the UI `Entry`
shape: `voiceLines` receives the stored combined total as a string, and
`bts`, `iot`, `hsi` are hard-coded `"0"` placeholders.  `renderQ` abstracts
JS number-to-string rendering for the two decimal columns, which no claim
depends on. -/
def fromRow (renderQ : ℚ → String) (row : Row) : Entry :=
  { date := row.date
    voiceLines := renderNat row.lines
    bts := "0"
    iot := "0"
    hsi := "0"
    accessories := renderQ row.accessories
    protection := renderNat row.protection
    planName := row.plan_name
    mrc := renderQ row.revenue }

/-- The combined `lines` column is the sum of the four parsed channel
counts. -/
theorem toRow_lines (e : Entry) :
    (toRow e).lines
      = parseNat e.voiceLines + parseNat e.bts + parseNat e.iot + parseNat e.hsi := by
  simp [toRow]

/-- Claim C9: the store round trip collapses the channel breakdown — each
fetched row maps to an entry whose `voiceLines` renders the stored combined
total while `bts`, `iot`, `hsi` are all `"0"`; hence total lines is
preserved across a round trip of the whole list, while the individual
channel totals are not. -/
theorem store_round_trip (renderQ : ℚ → String) :
    (∀ row : Row,
      (fromRow renderQ row).voiceLines = renderNat row.lines ∧
      (fromRow renderQ row).bts = "0" ∧
      (fromRow renderQ row).iot = "0" ∧
      (fromRow renderQ row).hsi = "0") ∧
    (∀ entries : List Entry,
      totalLines ((entries.map toRow).map (fromRow renderQ)) = totalLines entries) ∧
    (∃ entries : List Entry,
      totalVoiceLines ((entries.map toRow).map (fromRow renderQ)) ≠ totalVoiceLines entries ∧
      totalBts ((entries.map toRow).map (fromRow renderQ)) ≠ totalBts entries ∧
      totalIot ((entries.map toRow).map (fromRow renderQ)) ≠ totalIot entries ∧
      totalHsi ((entries.map toRow).map (fromRow renderQ)) ≠ totalHsi entries) := by
  refine ⟨fun row => ⟨rfl, rfl, rfl, rfl⟩, ?_, ?_⟩
  · intro entries
    rw [List.map_map]
    unfold totalLines totalVoiceLines totalBts totalIot totalHsi
    rw [foldl_add_eq_sum, foldl_add_eq_sum, foldl_add_eq_sum, foldl_add_eq_sum,
      foldl_add_eq_sum, foldl_add_eq_sum, foldl_add_eq_sum, foldl_add_eq_sum]
    simp only [zero_add, List.map_map, Function.comp_def]
    have hv : entries.map (fun e => parseNat (fromRow renderQ (toRow e)).voiceLines)
        = entries.map (fun e =>
            parseNat e.voiceLines + parseNat e.bts + parseNat e.iot + parseNat e.hsi) := by
      refine List.map_congr_left fun e _ => ?_
      show parseNat (renderNat (toRow e).lines) = _
      rw [parseNat_renderNat, toRow_lines]
    have hz : (entries.map (fun e => parseNat "0")).sum = 0 := by
      rw [List.sum_eq_zero]
      intro x hx
      rcases List.mem_map.mp hx with ⟨e, _, he⟩
      exact he ▸ rfl
    have hb : entries.map (fun e => parseNat (fromRow renderQ (toRow e)).bts)
        = entries.map (fun e => parseNat "0") := rfl
    have hi : entries.map (fun e => parseNat (fromRow renderQ (toRow e)).iot)
        = entries.map (fun e => parseNat "0") := rfl
    have hh : entries.map (fun e => parseNat (fromRow renderQ (toRow e)).hsi)
        = entries.map (fun e => parseNat "0") := rfl
    rw [hv, hb, hi, hh, hz]
    simp only [List.sum_map_add]
    ring
  · have h0 : parseNat "0" = 0 := by decide
    refine ⟨[demoEntry2], ?_, ?_, ?_, ?_⟩
    · have h1 : totalVoiceLines (([demoEntry2].map toRow).map (fromRow renderQ))
          = parseNat (renderNat (toRow demoEntry2).lines) := by
        simp [totalVoiceLines, fromRow]
      rw [h1, parseNat_renderNat]
      decide
    · have h1 : totalBts (([demoEntry2].map toRow).map (fromRow renderQ)) = 0 := by
        simp [totalBts, fromRow, h0]
      rw [h1]
      decide
    · have h1 : totalIot (([demoEntry2].map toRow).map (fromRow renderQ)) = 0 := by
        simp [totalIot, fromRow, h0]
      rw [h1]
      decide
    · have h1 : totalHsi (([demoEntry2].map toRow).map (fromRow renderQ)) = 0 := by
        simp [totalHsi, fromRow, h0]
      rw [h1]
      decide
